import Mathlib

/-!
Shallow embedding of the volume-raycasting VTK volume loader
(`src/vtkvolume.cpp`, `src/raycastvolume.cpp`, `src/raycastvolume.h`) and
proofs settling the specification claims about it.

Modelling conventions:
* C++ machine integers are modelled as `Nat`/`Int`; bytes are `Nat` values
  below 256.
* C++ `double` arithmetic is modelled by exact rational arithmetic (`ℚ`).
  Every concrete input used below makes the C++ double computation exact,
  so the rational model agrees with the C++ value there.  The two IEEE
  constants used by the code are embedded with their exact values:
  `std::numeric_limits<double>::max() = (2^53 - 1) * 2^971` and
  `std::numeric_limits<double>::min() = 2^(-1022)` (the smallest positive
  normal double, not the most negative double).
* A `double` operation whose C++ result is not a finite number with a
  defined conversion (division by zero followed by a float-to-unsigned-char
  cast of the non-finite result, which is undefined behaviour) is modelled
  as `Option.none`.
-/

namespace VRC

/-- Host endianness probed by `is_little_endian()` in `vtkvolume.cpp`.
The claims about byte decoding are all scoped to a little-endian host, so
the model fixes the probe result to `true`. -/
def is_little_endian : Bool := true

/-- One iteration body of the loop in `swap_byte_order` (`vtkvolume.cpp`
lines 79-88): `tmp = p[i]; p[i] = p[j]; p[j] = tmp;` with `j = N-i-1`.
Both reads happen before the writes, which the `tmp` variable guarantees
in the source. -/
def listSwap (l : List Nat) (i j : Nat) : List Nat :=
  (l.set i (l.getD j 0)).set j (l.getD i 0)

/-- Model of `swap_byte_order<N>` from `vtkvolume.cpp`: for
`i = 0, …, N/2 - 1` swap bytes `i` and `N-i-1` in place.  The template
parameter `N` is the byte width of the element (`sizeof (T)`), passed
explicitly as in the source. -/
def swap_byte_order (N : Nat) (l : List Nat) : List Nat :=
  (List.range (N / 2)).foldl (fun p i => listSwap p i (N - i - 1)) l

/-- Value of a little-endian byte list (least significant byte first), as
the host memory is interpreted on a little-endian machine. -/
def bytesLE : List Nat → Nat
  | [] => 0
  | b :: bs => b + 256 * bytesLE bs

/-- Two's-complement reinterpretation of an unsigned `w`-byte value as a
signed integer. -/
def toSigned (w : Nat) (n : Nat) : Int :=
  if n < 2 ^ (8 * w - 1) then (n : Int) else (n : Int) - 2 ^ (8 * w)

/-- Numeric value of the in-memory bytes of one element of an integral
type on a little-endian host: unsigned types take the plain little-endian
value, signed types its two's-complement reinterpretation. -/
def interpretLE (signed : Bool) (bytes : List Nat) : Int :=
  if signed then toSigned bytes.length (bytesLE bytes) else (bytesLE bytes : Int)

/-- In-memory bytes of one element after the binary branch of `read_data`
(`vtkvolume.cpp` lines 124-131): the raw on-disk bytes, byte-swapped when
the host is little endian and the element is wider than one byte. -/
def memBytes (w : Nat) (disk : List Nat) : List Nat :=
  if is_little_endian ∧ 1 < w then swap_byte_order w disk else disk

/-- Decoded numeric value of one element read by the binary branch of
`read_data` from its on-disk bytes, for an integral element type of width
`w` and the given signedness. -/
def binaryDecodeElem (w : Nat) (signed : Bool) (disk : List Nat) : Int :=
  interpretLE signed (memBytes w disk)

/-- Exact value of `std::numeric_limits<double>::max()`, i.e.
`(2^53 - 1) * 2^971`. -/
def DBL_MAX : ℚ := ⟨179769313486231570814527423731704356798070567525844996598917476803157260780028538760589558632766878171540458953514382464234321326889464182768467546703537516986049910576551282076245490090389328944075868508455133942304583236903222948165808559332123348274797826204144723168738177180919299881250404026184124858368, 1, one_ne_zero, Nat.coprime_one_right _⟩

/-- Exact value of `std::numeric_limits<double>::min()`: the smallest
positive normal double, `2^(-1022)`, which is what the range computation
in `read_data` uses as the initial maximum accumulator.  Stated as the
reduced fraction `1 / 2^1022`. -/
def DBL_MIN : ℚ := ⟨1, 44942328371557897693232629769725618340449424473557664318357520289433168951375240783177119330601884005280028469967848339414697442203604155623211857659868531094441973356216371319075554900311523529863270738021251442209537670585615720368478277635206809290837627671146574559986811484619929076208839082406056034304, by decide, Nat.coprime_one_left _⟩

/-- Model of the range loop of `read_data` (`vtkvolume.cpp` lines
140-149): starting from `(DBL_MAX, DBL_MIN)`, each sample replaces the
running maximum when strictly greater and the running minimum when
strictly smaller.  The pair is `(range.first, range.second)` =
`(min, max)`. -/
def find_range (data : List ℚ) : ℚ × ℚ :=
  data.foldl (fun r v => (if v < r.1 then v else r.1, if r.2 < v then v else r.2))
    (DBL_MAX, DBL_MIN)

/-- Model of `static_cast<unsigned char>` applied to a C++ `double`:
truncation toward zero for values in `[0, 256)` (for non-negative values
this is the floor); any other argument, including the non-finite results
of a division by zero, makes the conversion undefined behaviour, which is
modelled as `none`. -/
def cppTruncToByte (x : ℚ) : Option Nat :=
  if 0 ≤ x ∧ x < 256 then some ⌊x⌋.toNat else none

/-- Model of one loop iteration of `cast_and_normalise` (`vtkvolume.cpp`
lines 165-175): `static_cast<unsigned char>(255 * (v - range.first) /
(range.second - range.first))`.  The source contains no guard for a zero
divisor: when `range.second - range.first = 0` the C++ division yields a
non-finite double whose conversion to `unsigned char` is undefined,
modelled as `none`. -/
def cast_and_normalise_elem (range : ℚ × ℚ) (v : ℚ) : Option Nat :=
  if range.2 - range.1 = 0 then none
  else cppTruncToByte (255 * (v - range.1) / (range.2 - range.1))

/-- Model of `cast_and_normalise` (`vtkvolume.cpp` lines 165-175): the
per-element conversion applied to every input element. -/
def cast_and_normalise (data : List ℚ) (range : ℚ × ℚ) : List (Option Nat) :=
  data.map (cast_and_normalise_elem range)

/-- Offsets written by the fill loop of `RayCastVolume::create_noise`
(`raycastvolume.cpp` lines 139-141): the loop is
`for (p = noise; p <= noise + width * height; ++p) *p = …;`, so the
pointer `p` takes every offset from `0` to `width * height` inclusive
(the loop condition is `<=`, not `<`). -/
def create_noise_writes (width height : Nat) : List Nat :=
  List.range (width * height + 1)

/-- Model of `read_data` (`vtkvolume.cpp` lines 119-155).  The byte
buffer produced by the final `memcpy` is represented by the list of the
element values it holds (its length in bytes is the list length times
`sizeof (T)`).  In the binary branch `data` is resized to
`element_count` and filled with decoded elements; in the ASCII branch
`data` is resized to `element_count` (zero-filled) and the parsed tokens
are then appended with `push_back`, so the vector ends up holding
`2 * element_count` values.  The range loop then visits `data[i]` for
`i < element_count` only. -/
def read_data (binary : Bool) (w : Nat) (signed : Bool) (element_count : Nat)
    (payload : List Nat) (tokens : List ℚ) : List ℚ × (ℚ × ℚ) :=
  let data : List ℚ :=
    if binary then
      (List.range element_count).map fun i =>
        ((binaryDecodeElem w signed ((payload.drop (w * i)).take w) : Int) : ℚ)
    else
      List.replicate element_count (0 : ℚ) ++ tokens.take element_count
  (data, find_range (data.take element_count))

/-- Header `SCALARS` type keyword vocabulary of `read_data_type`
(`vtkvolume.cpp` lines 249-281). -/
inductive DataType
  | Int8 | Uint8 | Int16 | Uint16 | Int32 | Uint32 | Int64 | Uint64 | Float | Double
deriving DecidableEq

/-- Keyword-to-tag mapping of `read_data_type` (`vtkvolume.cpp` lines
249-281). -/
def scalarsType? (s : String) : Option DataType :=
  if s = "unsigned_char" then some DataType.Uint8
  else if s = "char" then some DataType.Int8
  else if s = "unsigned_short" then some DataType.Uint16
  else if s = "short" then some DataType.Int16
  else if s = "unsigned_int" then some DataType.Uint32
  else if s = "int" then some DataType.Int32
  else if s = "unsigned_long" then some DataType.Uint64
  else if s = "long" then some DataType.Int64
  else if s = "float" then some DataType.Float
  else if s = "double" then some DataType.Double
  else none

/-- Template argument `T` (as byte width and signedness) with which
`VTKVolume::load_volume` instantiates `read_data` for each data type tag,
transcribed case by case from the switch at `vtkvolume.cpp` lines
340-371: `Int8 ↦ char`, `Uint8 ↦ unsigned char`, `Int16 ↦ unsigned
short`, `Uint16 ↦ short`, `Int32 ↦ unsigned int`, `Uint32 ↦ int`,
`Int64 ↦ unsigned long`, `Uint64 ↦ long` (the source pairs each signed
tag with the unsigned C type and vice versa).  `Float` and `Double`
instantiate `read_data<float>`/`read_data<double>`, whose IEEE decoding
is not modelled (no claim exercises it), hence `none`. -/
def loadReadType : DataType → Option (Nat × Bool)
  | DataType.Int8 => some (1, true)
  | DataType.Uint8 => some (1, false)
  | DataType.Int16 => some (2, false)
  | DataType.Uint16 => some (2, true)
  | DataType.Int32 => some (4, false)
  | DataType.Uint32 => some (4, true)
  | DataType.Int64 => some (8, false)
  | DataType.Uint64 => some (8, true)
  | DataType.Float => none
  | DataType.Double => none

/-- Member state of a `VTKVolume` object.  `m_data` is represented by
the list of element values the byte buffer holds (see `read_data`). -/
structure VTKState where
  m_datatype : DataType
  m_size : Int × Int × Int
  m_origin : ℚ × ℚ × ℚ
  m_spacing : ℚ × ℚ × ℚ
  m_range : ℚ × ℚ
  m_data : List ℚ

/-- A VTK file as the loader accesses it: the text lines of its header,
the raw payload bytes following the header (binary mode), and the
whitespace-separated numeric tokens following the header (ASCII mode). -/
structure VTKFile where
  lines : List String
  payload : List Nat
  tokens : List ℚ

/-- Prefix test modelling `line.substr(0, n) == "KEYWORD"` for a keyword
of length `n`. -/
def strStartsWith (p s : String) : Bool :=
  p.data.isPrefixOf s.data

/-- Whitespace tokenisation of one header line, modelling how `sscanf`
with `%s`/`%d`/`%f` directives walks whitespace-separated fields. -/
def splitWSAux : List Char → List Char → List String
  | [], acc => if acc.isEmpty then [] else [String.mk acc.reverse]
  | c :: cs, acc =>
    if c.isWhitespace then
      if acc.isEmpty then splitWSAux cs [] else String.mk acc.reverse :: splitWSAux cs []
    else splitWSAux cs (c :: acc)

/-- Fields of a header line (whitespace-separated, none empty). -/
def tokensOf (line : String) : List String :=
  splitWSAux line.data []

/-- Digit parser used to model the numeric `sscanf` conversions. -/
def parseNatChars : List Char → Option Nat
  | [] => none
  | cs => go cs 0
where
  go : List Char → Nat → Option Nat
    | [], acc => some acc
    | c :: cs, acc => if c.isDigit then go cs (10 * acc + (c.toNat - 48)) else none

/-- Model of an `sscanf` `%d` conversion on one complete field: an
optional minus sign followed by decimal digits. -/
def parseIntTok (s : String) : Option Int :=
  match s.data with
  | '-' :: rest => (parseNatChars rest).map fun n => -(n : Int)
  | cs => (parseNatChars cs).map fun n => (n : Int)

/-- Model of an `sscanf` `%f` conversion on one complete field, for the
plain decimal literals used in VTK headers: optional minus sign, integer
digits, optional fractional digits.  The value is exact (the claims do
not depend on `float` rounding of header values). -/
def parseFloatTok (s : String) : Option ℚ :=
  let signed : ℚ × List Char :=
    match s.data with
    | '-' :: rest => (-1, rest)
    | cs => (1, cs)
  let ip := signed.2.takeWhile fun c => c ≠ '.'
  let rest := signed.2.dropWhile fun c => c ≠ '.'
  match parseNatChars ip with
  | none => none
  | some n =>
    match rest with
    | [] => some (signed.1 * n)
    | _ :: frac =>
      match parseNatChars frac with
      | none => none
      | some f => some (signed.1 * ((n : ℚ) + (f : ℚ) / 10 ^ frac.length))

/-- Model of `VTKVolume::read_data_type` (`vtkvolume.cpp` lines
239-284): scan every header line; on each line starting with `SCALARS`,
read the third field (`sscanf "%*s %*s %s"`) and assign the matching tag
to `m_datatype`, so a later match overwrites an earlier one; a missing
field or unsupported keyword throws, leaving the assignments made so
far. -/
def read_data_type : List String → VTKState → VTKState × Option String
  | [], s => (s, none)
  | line :: rest, s =>
    if strStartsWith "SCALARS" line then
      match (tokensOf line).getD 2 "" with
      | "" => (s, some "Cannot read volume data type.")
      | tok =>
        match scalarsType? tok with
        | some t => read_data_type rest { s with m_datatype := t }
        | none => (s, some "Unsupported volume data type.")
    else read_data_type rest s

/-- Model of `VTKVolume::read_dimensions` (`vtkvolume.cpp` lines
182-193): on each line starting with `DIMENSIONS`, parse three `%d`
fields into `m_size`; throw if they cannot be read. -/
def read_dimensions : List String → VTKState → VTKState × Option String
  | [], s => (s, none)
  | line :: rest, s =>
    if strStartsWith "DIMENSIONS" line then
      match parseIntTok ((tokensOf line).getD 1 ""), parseIntTok ((tokensOf line).getD 2 ""),
          parseIntTok ((tokensOf line).getD 3 "") with
      | some w, some h, some d => read_dimensions rest { s with m_size := (w, h, d) }
      | _, _, _ => (s, some "Cannot read volume dimension.")
    else read_dimensions rest s

/-- Model of `VTKVolume::read_origin` (`vtkvolume.cpp` lines 200-211). -/
def read_origin : List String → VTKState → VTKState × Option String
  | [], s => (s, none)
  | line :: rest, s =>
    if strStartsWith "ORIGIN" line then
      match parseFloatTok ((tokensOf line).getD 1 ""), parseFloatTok ((tokensOf line).getD 2 ""),
          parseFloatTok ((tokensOf line).getD 3 "") with
      | some ox, some oy, some oz => read_origin rest { s with m_origin := (ox, oy, oz) }
      | _, _, _ => (s, some "Cannot read volume origin.")
    else read_origin rest s

/-- Model of `VTKVolume::read_spacing` (`vtkvolume.cpp` lines 218-229). -/
def read_spacing : List String → VTKState → VTKState × Option String
  | [], s => (s, none)
  | line :: rest, s =>
    if strStartsWith "SPACING" line then
      match parseFloatTok ((tokensOf line).getD 1 ""), parseFloatTok ((tokensOf line).getD 2 ""),
          parseFloatTok ((tokensOf line).getD 3 "") with
      | some sx, some sy, some sz => read_spacing rest { s with m_spacing := (sx, sy, sz) }
      | _, _, _ => (s, some "Cannot read volume spacing.")
    else read_spacing rest s

/-- Model of `is_binary` (`vtkvolume.cpp` lines 96-107): first header
line starting with `BINARY` or `ASCII` wins; none found is an error
(`none`). -/
def is_binary : List String → Option Bool
  | [] => none
  | line :: rest =>
    if strStartsWith "BINARY" line then some true
    else if strStartsWith "ASCII" line then some false
    else is_binary rest

/-- The ten header lines read by `VTKVolume::load_volume`; `getline`
past the end of file leaves an empty line. -/
def header_of (lines : List String) : List String :=
  (List.range 10).map fun i => lines.getD i ""

/-- Model of `VTKVolume::load_volume` (`vtkvolume.cpp` lines 291-374) as
a state transformer returning the object state after the call together
with the thrown error message, if any.  An exception leaves the
mutations already performed in place, which the model reproduces by
returning the intermediate state reached when a phase fails.  The ten
header lines are read first (an empty line is an error), the magic
number of line 1 is checked, then `read_data_type`, `read_dimensions`,
`read_origin` and `read_spacing` scan the header, `element_count` is the
product of the parsed dimensions, the binary/ASCII marker is looked up,
and `read_data` is dispatched with the template argument given by
`loadReadType`. -/
def load_volume (f : VTKFile) (s : VTKState) : VTKState × Option String :=
  let header := header_of f.lines
  if header.any fun l => l = "" then (s, some "Cannot read header, missing line.")
  else if strStartsWith "# vtk" (header.getD 0 "") then
    match read_data_type header s with
    | (s1, some e) => (s1, some e)
    | (s1, none) =>
      match read_dimensions header s1 with
      | (s2, some e) => (s2, some e)
      | (s2, none) =>
        match read_origin header s2 with
        | (s3, some e) => (s3, some e)
        | (s3, none) =>
          match read_spacing header s3 with
          | (s4, some e) => (s4, some e)
          | (s4, none) =>
            let n := ((s4.m_size.1 * s4.m_size.2.1) * s4.m_size.2.2).toNat
            match is_binary header with
            | none => (s4, some "Cannot read file format.")
            | some bin =>
              match loadReadType s4.m_datatype with
              | none => (s4, some "Float or double element decoding is not modelled.")
              | some ws =>
                let dr := read_data bin ws.1 ws.2 n f.payload f.tokens
                ({ s4 with m_data := dr.1, m_range := dr.2 }, none)
  else (s, some "Not a valid VTK file.")

/-- An initial `VTKVolume` object (default-constructed members). -/
def initState : VTKState :=
  { m_datatype := DataType.Uint8
    m_size := (0, 0, 0)
    m_origin := (0, 0, 0)
    m_spacing := (0, 0, 0)
    m_range := (0, 0)
    m_data := [] }

/-- A well-formed binary VTK file declaring `SCALARS … short` whose
single sample has the on-disk (big-endian) bytes `0xFF 0xFF`, i.e. the
signed 16-bit value `-1`. -/
def shortFile : VTKFile :=
  { lines := ["# vtk DataFile Version 3.0", "comment", "BINARY", "DATASET STRUCTURED_POINTS",
              "DIMENSIONS 1 1 1", "ORIGIN 0.0 0.0 0.0", "SPACING 1.0 1.0 1.0",
              "POINT_DATA 1", "SCALARS image_data short", "LOOKUP_TABLE default"]
    payload := [255, 255]
    tokens := [] }

/-! Geometry of `RayCastVolume` (`raycastvolume.h` lines 53-99 and
`raycastvolume.cpp` lines 181-185), over exact rationals in place of
`QVector3D` floats. -/

/-- Component triple standing in for `QVector3D`. -/
structure Vec3 where
  x : ℚ
  y : ℚ
  z : ℚ
deriving DecidableEq

/-- Component-wise product, as `QVector3D operator*`. -/
def vmul (a b : Vec3) : Vec3 := ⟨a.x * b.x, a.y * b.y, a.z * b.z⟩

/-- Division of a vector by a scalar. -/
def vdivs (a : Vec3) (k : ℚ) : Vec3 := ⟨a.x / k, a.y / k, a.z / k⟩

/-- Vector negation. -/
def vneg (a : Vec3) : Vec3 := ⟨-a.x, -a.y, -a.z⟩

/-- `std::max({a, b, c})`. -/
def max3 (a b c : ℚ) : ℚ := max (max a b) c

/-- Model of `RayCastVolume::extent` (`raycastvolume.h` lines 53-56):
the component-wise product of size and spacing divided by its largest
component. -/
def extent (size spacing : Vec3) : Vec3 :=
  let e := vmul size spacing
  vdivs e (max3 e.x e.y e.z)

/-- Model of `RayCastVolume::scale_factor` (`raycastvolume.cpp` lines
181-185). -/
def scale_factor (size spacing : Vec3) : ℚ :=
  let e := vmul size spacing
  max3 e.x e.y e.z

/-- Model of `RayCastVolume::top` (`raycastvolume.h` lines 80-86). -/
def top (size spacing origin : Vec3) (shift : Bool) : Vec3 :=
  let t := vdivs (extent size spacing) 2
  if shift then
    ⟨t.x - origin.x / scale_factor size spacing, t.y - origin.y / scale_factor size spacing,
      t.z - origin.z / scale_factor size spacing⟩
  else t

/-- Model of `RayCastVolume::bottom` (`raycastvolume.h` lines 93-99). -/
def bottom (size spacing origin : Vec3) (shift : Bool) : Vec3 :=
  let b := vneg (vdivs (extent size spacing) 2)
  if shift then
    ⟨b.x - origin.x / scale_factor size spacing, b.y - origin.y / scale_factor size spacing,
      b.z - origin.z / scale_factor size spacing⟩
  else b

/-! Helper lemmas about the normalisation formula, shared by the claims
about `cast_and_normalise`. -/

/-- For a non-degenerate range and a sample inside it, the normalisation
of one element is defined and equals the floor (truncation) of
`255 * (v - min) / (max - min)`. -/
theorem normalise_elem_eq_floor (mn mx v : ℚ) (h : mn < mx) (h2 : mn ≤ v) (h3 : v ≤ mx) :
    cast_and_normalise_elem (mn, mx) v = some (⌊255 * (v - mn) / (mx - mn)⌋).toNat := by
  have hd : (0 : ℚ) < mx - mn := sub_pos.mpr h
  have hx0 : 0 ≤ 255 * (v - mn) / (mx - mn) :=
    div_nonneg (mul_nonneg (by norm_num) (sub_nonneg.mpr h2)) hd.le
  have hx1 : 255 * (v - mn) / (mx - mn) ≤ 255 := by
    rw [div_le_iff₀ hd]
    have hvm : v - mn ≤ mx - mn := sub_le_sub_right h3 mn
    nlinarith
  unfold cast_and_normalise_elem cppTruncToByte
  rw [if_neg (by simpa using sub_ne_zero.mpr h.ne'), if_pos ⟨hx0, lt_of_le_of_lt hx1 (by norm_num)⟩]

/-- The truncated normalisation value never exceeds 255 for in-range
samples. -/
theorem normalise_floor_le (mn mx v : ℚ) (h : mn < mx) (h3 : v ≤ mx) :
    (⌊255 * (v - mn) / (mx - mn)⌋).toNat ≤ 255 := by
  have hd : (0 : ℚ) < mx - mn := sub_pos.mpr h
  have hx1 : 255 * (v - mn) / (mx - mn) ≤ 255 := by
    rw [div_le_iff₀ hd]
    have hvm : v - mn ≤ mx - mn := sub_le_sub_right h3 mn
    nlinarith
  have hf : ⌊255 * (v - mn) / (mx - mn)⌋ ≤ 255 := by
    have := Int.floor_le_floor hx1
    simpa using this
  exact Int.toNat_le.mpr hf

/-- The minimum sample normalises to byte 0. -/
theorem normalise_elem_at_min (mn mx : ℚ) (h : mn < mx) :
    cast_and_normalise_elem (mn, mx) mn = some 0 := by
  rw [normalise_elem_eq_floor mn mx mn h le_rfl h.le]
  norm_num

/-- The maximum sample normalises to byte 255. -/
theorem normalise_elem_at_max (mn mx : ℚ) (h : mn < mx) :
    cast_and_normalise_elem (mn, mx) mx = some 255 := by
  rw [normalise_elem_eq_floor mn mx mx h h.le le_rfl]
  have hd : (mx - mn) ≠ 0 := sub_ne_zero.mpr h.ne'
  rw [mul_div_assoc, div_self hd, mul_one]
  norm_num
  decide

/-! Claim theorems. -/

/-- C1: the claim states that samples of a binary file are decoded as
values of the source type selected by the `SCALARS` keyword, so that a
binary `short` file containing a negative sample yields that signed
value as `range.min`.  It fails: `read_data_type` maps `short` to the
`Int16` tag, but the dispatch switch of `load_volume` instantiates
`read_data<unsigned short>` for `Int16`, so the sample bytes `0xFF 0xFF`
(signed value `-1`) are decoded as the unsigned value `65535` and the
observed range becomes `(65535, 65535)` instead of containing `-1`. -/
theorem c1_short_decoded_as_unsigned :
    scalarsType? "short" = some DataType.Int16 ∧
    loadReadType DataType.Int16 = some (2, false) ∧
    (load_volume shortFile initState).2 = none ∧
    (load_volume shortFile initState).1.m_range = ((65535 : ℚ), 65535) ∧
    binaryDecodeElem 2 true [255, 255] = -1 ∧
    (load_volume shortFile initState).1.m_range.1 ≠ ((-1 : Int) : ℚ) := by
  refine ⟨by decide, by decide, by decide, by decide, by decide, by decide⟩

/-- C2: the claim states the ASCII branch stores exactly
`element_count` samples, the `i`-th being the `i`-th token, with buffer
byte length `element_count * sizeof(T)`.  It fails: `read_data` first
resizes `data` to `element_count` (zero-filling it) and then appends the
parsed tokens with `push_back`, so for one declared element of a 2-byte
type and the single token `5` the vector holds the two values `[0, 5]`,
the buffer is `4` bytes instead of `2`, and sample 0 is `0`, not `5`. -/
theorem c2_ascii_doubled_buffer :
    (read_data false 2 true 1 [] [(5 : ℚ)]).1 = [0, 5] ∧
    (read_data false 2 true 1 [] [(5 : ℚ)]).1.length * 2 = 4 ∧
    (4 : Nat) ≠ 1 * 2 ∧
    (read_data false 2 true 1 [] [(5 : ℚ)]).1.getD 0 0 ≠ 5 := by
  refine ⟨by decide, by decide, by decide, by decide⟩

/-- C7: a load attempt on a file whose first header line does not begin
with `# vtk` reports an error and leaves every member of the previously
loaded volume unchanged: the magic check of `load_volume` happens before
any member mutation, and the only earlier exception (an empty header
line) also precedes every mutation. -/
theorem c7_magic_failure_is_atomic (f : VTKFile) (s : VTKState)
    (h : strStartsWith "# vtk" (f.lines.getD 0 "") = false) :
    (load_volume f s).1 = s ∧ (load_volume f s).2.isSome = true := by
  unfold load_volume
  by_cases hEmpty : ((header_of f.lines).any fun l => l = "") = true
  · rw [if_pos hEmpty]
    exact ⟨rfl, rfl⟩
  · rw [if_neg hEmpty]
    have h0 : strStartsWith "# vtk" ((header_of f.lines).getD 0 "") = false := h
    rw [h0]
    exact ⟨rfl, rfl⟩

/-- Witness for `c7_magic_failure_is_atomic` on a file whose first line
is `VTKflie` (corrupted magic) and an arbitrary prior state. -/
theorem c7_magic_failure_is_atomic_witness :
    strStartsWith "# vtk" ((VTKFile.mk ["VTKflie corrupted"] [] []).lines.getD 0 "") = false ∧
    ((load_volume (VTKFile.mk ["VTKflie corrupted"] [] []) initState).1 = initState ∧
      (load_volume (VTKFile.mk ["VTKflie corrupted"] [] []) initState).2.isSome = true) :=
  ⟨by decide,
    c7_magic_failure_is_atomic (VTKFile.mk ["VTKflie corrupted"] [] []) initState (by decide)⟩

/-- C9: for positive size and spacing, `extent` is the component-wise
product of size and spacing divided by its largest component (which
equals `scale_factor`), the largest component of `extent` is exactly 1,
`top(false)` is `extent/2` and `bottom(false)` is `-extent/2`; at
`size = (2,1,1)`, `spacing = (1,1,1)` the concrete values are
`extent = (1, 0.5, 0.5)`, `scale_factor = 2`, `top(false) =
(0.5, 0.25, 0.25)` and `bottom(false) = (-0.5, -0.25, -0.25)`. -/
theorem c9_geometry (size spacing origin : Vec3)
    (hx : 0 < size.x) (hy : 0 < size.y) (hz : 0 < size.z)
    (hsx : 0 < spacing.x) (hsy : 0 < spacing.y) (hsz : 0 < spacing.z) :
    (extent size spacing = vdivs (vmul size spacing) (scale_factor size spacing)) ∧
    max3 (extent size spacing).x (extent size spacing).y (extent size spacing).z = 1 ∧
    top size spacing origin false = vdivs (extent size spacing) 2 ∧
    bottom size spacing origin false = vneg (vdivs (extent size spacing) 2) ∧
    extent ⟨2, 1, 1⟩ ⟨1, 1, 1⟩ = ⟨1, 1 / 2, 1 / 2⟩ ∧
    scale_factor ⟨2, 1, 1⟩ ⟨1, 1, 1⟩ = 2 ∧
    top ⟨2, 1, 1⟩ ⟨1, 1, 1⟩ origin false = ⟨1 / 2, 1 / 4, 1 / 4⟩ ∧
    bottom ⟨2, 1, 1⟩ ⟨1, 1, 1⟩ origin false = ⟨-(1 / 2), -(1 / 4), -(1 / 4)⟩ := by
  refine ⟨rfl, ?_, rfl, rfl, ?_, ?_, ?_, ?_⟩
  · have hm : 0 < max3 (vmul size spacing).x (vmul size spacing).y (vmul size spacing).z := by
      have h1 : 0 < (vmul size spacing).x := mul_pos hx hsx
      exact lt_of_lt_of_le h1 (le_trans (le_max_left _ _) (le_max_left _ _))
    simp only [extent, vdivs, max3] at hm ⊢
    rw [max_div_div_right hm.le, max_div_div_right hm.le]
    exact div_self hm.ne'
  · norm_num [extent, vmul, vdivs, max3]
  · norm_num [scale_factor, vmul, max3]
  · norm_num [top, extent, vmul, vdivs, max3]
  · norm_num [bottom, vneg, extent, vmul, vdivs, max3]

/-- Witness for `c9_geometry` at `size = (2,1,1)`, `spacing = (1,1,1)`,
`origin = (0,0,0)`. -/
theorem c9_geometry_witness :
    ((0 : ℚ) < (Vec3.mk 2 1 1).x ∧ (0 : ℚ) < (Vec3.mk 2 1 1).y ∧ (0 : ℚ) < (Vec3.mk 2 1 1).z ∧
      (0 : ℚ) < (Vec3.mk 1 1 1).x ∧ (0 : ℚ) < (Vec3.mk 1 1 1).y ∧ (0 : ℚ) < (Vec3.mk 1 1 1).z) ∧
    extent ⟨2, 1, 1⟩ ⟨1, 1, 1⟩ = ⟨1, 1 / 2, 1 / 2⟩ ∧
    scale_factor ⟨2, 1, 1⟩ ⟨1, 1, 1⟩ = 2 ∧
    top ⟨2, 1, 1⟩ ⟨1, 1, 1⟩ ⟨0, 0, 0⟩ false = ⟨1 / 2, 1 / 4, 1 / 4⟩ ∧
    bottom ⟨2, 1, 1⟩ ⟨1, 1, 1⟩ ⟨0, 0, 0⟩ false = ⟨-(1 / 2), -(1 / 4), -(1 / 4)⟩ := by
  have h := c9_geometry ⟨2, 1, 1⟩ ⟨1, 1, 1⟩ ⟨0, 0, 0⟩ (by norm_num) (by norm_num) (by norm_num)
    (by norm_num) (by norm_num) (by norm_num)
  exact ⟨⟨by norm_num, by norm_num, by norm_num, by norm_num, by norm_num, by norm_num⟩,
    h.2.2.2.2.1, h.2.2.2.2.2.1, h.2.2.2.2.2.2.1, h.2.2.2.2.2.2.2⟩

/-- C3: the claim states that the observed range always equals the true
minimum and maximum over all decoded samples, in particular for
volumes whose samples are all negative.  It fails: the range loop in
`read_data` initialises the running maximum with
`std::numeric_limits<double>::min()`, the smallest positive double, so
for the one-sample volume `[-5]` the code reports the range
`(-5, 2^(-1022))`, whose second component is not the true maximum `-5`. -/
theorem c3_range_counterexample :
    find_range [(-5 : ℚ)] = (-5, DBL_MIN) ∧ DBL_MIN ≠ (-5 : ℚ) := by
  exact ⟨by decide, by decide⟩

/-- C4 (counterexample): the claim states the normalised byte is
`round(255 * (v - min) / (max - min))`.  For range `(0, 2)` and sample
`1` the formula's value is `127.5` (exact in IEEE double); the code's
`static_cast<unsigned char>` truncates it to `127`, while rounding to
nearest yields `128`. -/
theorem c4_round_counterexample :
    cast_and_normalise_elem (0, 2) 1 = some 127 ∧
    round ((255 : ℚ) * (1 - 0) / (2 - 0)) = 128 ∧ (127 : ℕ) ≠ 128 := by
  refine ⟨?_, by norm_num [round_eq], by norm_num⟩
  norm_num [cast_and_normalise_elem, cppTruncToByte]
  decide

/-- C4 (amended): for a volume with non-degenerate range and a sample
`v` within the range, the normalised output byte equals the truncation
(floor) of `255 * (v - range.min) / (range.max - range.min)`, not the
rounding to nearest. -/
theorem c4_truncation (mn mx v : ℚ) (h : mn < mx) (h2 : mn ≤ v) (h3 : v ≤ mx) :
    cast_and_normalise_elem (mn, mx) v = some (⌊255 * (v - mn) / (mx - mn)⌋).toNat :=
  normalise_elem_eq_floor mn mx v h h2 h3

/-- Witness for `c4_truncation` at `(mn, mx, v) = (0, 2, 1)`. -/
theorem c4_truncation_witness :
    (0 : ℚ) < 2 ∧ (0 : ℚ) ≤ 1 ∧ (1 : ℚ) ≤ 2 ∧
    cast_and_normalise_elem (0, 2) 1 = some (⌊(255 : ℚ) * (1 - 0) / (2 - 0)⌋).toNat :=
  ⟨by norm_num, by norm_num, by norm_num,
    c4_truncation 0 2 1 (by norm_num) (by norm_num) (by norm_num)⟩

/-- C5: the claim states the degenerate case `range.max == range.min` is
guarded and produces an explicitly chosen output byte for every voxel.
The code has no such guard: for the constant volume `[5, 5]` with range
`(5, 5)` the divisor `range.max - range.min` is zero, the double
division produces a non-finite value, and its conversion to
`unsigned char` is undefined, so no voxel receives a defined byte
(modelled as `none`). -/
theorem c5_no_guard :
    cast_and_normalise ([5, 5] : List ℚ) (5, 5) = [none, none] ∧
    ∀ o ∈ cast_and_normalise ([5, 5] : List ℚ) (5, 5), ¬ ∃ k : Nat, o = some k := by
  have h : cast_and_normalise ([5, 5] : List ℚ) (5, 5) = [none, none] := by
    norm_num [cast_and_normalise, cast_and_normalise_elem]
  refine ⟨h, ?_⟩
  rw [h]
  rintro o ho ⟨k, rfl⟩
  simp at ho

/-- C6: for a volume with non-degenerate range whose samples all lie
within the observed range, every normalised byte is defined and within
`[0, 255]`; a sample equal to `range.min` normalises to byte 0 and a
sample equal to `range.max` normalises to byte 255. -/
theorem c6_normalisation_bounds (mn mx : ℚ) (data : List ℚ) (h : mn < mx)
    (hdata : ∀ v ∈ data, mn ≤ v ∧ v ≤ mx) :
    (∀ o ∈ cast_and_normalise data (mn, mx), ∃ k : Nat, o = some k ∧ k ≤ 255) ∧
    cast_and_normalise_elem (mn, mx) mn = some 0 ∧
    cast_and_normalise_elem (mn, mx) mx = some 255 := by
  refine ⟨?_, normalise_elem_at_min mn mx h, normalise_elem_at_max mn mx h⟩
  intro o ho
  obtain ⟨v, hv, rfl⟩ := List.mem_map.mp ho
  obtain ⟨h2, h3⟩ := hdata v hv
  exact ⟨_, normalise_elem_eq_floor mn mx v h h2 h3, normalise_floor_le mn mx v h h3⟩

/-- Witness for `c6_normalisation_bounds` with range `(0, 2)` and data
`[0, 1, 2]`. -/
theorem c6_normalisation_bounds_witness :
    ((0 : ℚ) < 2 ∧ ∀ v ∈ ([0, 1, 2] : List ℚ), (0 : ℚ) ≤ v ∧ v ≤ 2) ∧
    ((∀ o ∈ cast_and_normalise ([0, 1, 2] : List ℚ) (0, 2), ∃ k : Nat, o = some k ∧ k ≤ 255) ∧
      cast_and_normalise_elem (0, 2) 0 = some 0 ∧
      cast_and_normalise_elem (0, 2) 2 = some 255) := by
  have hdata : ∀ v ∈ ([0, 1, 2] : List ℚ), (0 : ℚ) ≤ v ∧ v ≤ 2 := by
    intro v hv
    simp only [List.mem_cons, List.not_mem_nil, or_false] at hv
    rcases hv with rfl | rfl | rfl <;> norm_num
  exact ⟨⟨by norm_num, hdata⟩, c6_normalisation_bounds 0 2 [0, 1, 2] (by norm_num) hdata⟩

/-- C8: on a little-endian host, each element of a multi-byte integral
source type (widths 2, 4 and 8) read by the binary branch of `read_data`
is decoded to the numeric value of the reversal of its on-disk bytes,
i.e. the correct big-endian value; elements of 1-byte types are decoded
unchanged. -/
theorem c8_big_endian_decode (w : Nat) (signed : Bool) (disk : List Nat)
    (hw : w = 2 ∨ w = 4 ∨ w = 8) (hl : disk.length = w) :
    binaryDecodeElem w signed disk = interpretLE signed disk.reverse ∧
    ∀ b : Nat, binaryDecodeElem 1 signed [b] = interpretLE signed [b] := by
  refine ⟨?_, fun b => rfl⟩
  rcases hw with rfl | rfl | rfl
  · match disk, hl with
    | [a, b], _ => rfl
  · match disk, hl with
    | [a, b, c, d], _ => rfl
  · match disk, hl with
    | [a, b, c, d, e, f, g, h], _ => rfl

/-- Witness for `c8_big_endian_decode`: the 16-bit test pattern
`0x01 0x02` decodes to `0x0102 = 258`. -/
theorem c8_big_endian_decode_witness :
    ((2 : Nat) = 2 ∨ (2 : Nat) = 4 ∨ (2 : Nat) = 8) ∧ ([1, 2] : List Nat).length = 2 ∧
    (binaryDecodeElem 2 false [1, 2] = interpretLE false ([1, 2] : List Nat).reverse ∧
      ∀ b : Nat, binaryDecodeElem 1 false [b] = interpretLE false [b]) ∧
    binaryDecodeElem 2 false [1, 2] = 258 :=
  ⟨Or.inl rfl, rfl, c8_big_endian_decode 2 false [1, 2] (Or.inl rfl) rfl, by decide⟩

/-- C10: the claim states every write of the noise fill loop has offset
strictly below `width * height`.  It fails: the loop condition is
`p <= noise + width * height`, so the final iteration writes offset
`width * height`, one past the end of the `width * height`-byte buffer.
For a 1×1 viewport the loop writes offsets 0 and 1 in a 1-byte buffer. -/
theorem c10_noise_overflow :
    create_noise_writes 1 1 = [0, 1] ∧ (1 * 1) ∈ create_noise_writes 1 1 ∧ ¬ (1 * 1 < 1 * 1) := by
  refine ⟨by decide, by decide, by decide⟩

end VRC
